import Mathlib

/-!
# Verification of the VGN real-time dashboard's core logic

Shallow embedding of the substantive logic of the repository:

* `vag_api_client.py` — stop-id normalization, request URL construction, and
  the fail-closed fetch/parse of departures (`fetch_and_parse_departures`);
* `data_fetcher.py` — the per-cycle polling job (`fetch_nuremberg_stops_job`):
  priority ordering, truncation to 50 stops, and conditional Redis writes with
  expiry `FETCH_INTERVAL_SECONDS + 30`;
* `scripts/analysis_queries.py` — the delay engine
  (`get_regional_departures_df`, `calculate_regional_kpis`,
  `get_regional_delay_distribution`) and the static query layer
  (`get_stops_by_region`, `get_route_type_counts`).

External effects (HTTP, Redis, SQL, the pandas timestamp parser) are modelled
as explicit function parameters; the logic applied to their results is
translated from the source.
-/

namespace VGN

/-- Round-half-to-even on rationals, modelling numpy/pandas `Series.round()`
(banker's rounding), which the delay computation uses via
`(time_diff.dt.total_seconds() / 60).round()`. -/
def roundHalfEven (q : ℚ) : ℤ :=
  let n : ℤ := ⌊q⌋
  let frac : ℚ := q - (n : ℚ)
  if frac < 1 / 2 then n
  else if 1 / 2 < frac then n + 1
  else if n % 2 = 0 then n else n + 1

/-- A raw departure entry of the VAG API JSON (`raw_departures` elements in
`vag_api_client.fetch_and_parse_departures`); every field is optional because
the code reads it with `dict.get`, which yields `None` when absent. -/
structure RawDeparture where
  Linienname : Option String
  Richtungstext : Option String
  AbfahrtszeitSoll : Option String
  AbfahrtszeitIst : Option String
  HaltesteigText : Option String
deriving DecidableEq, Repr

/-- The simplified departure record built by `fetch_and_parse_departures`
(keys `line`, `destination`, `scheduled_time`, `actual_time`, `platform`). -/
structure Departure where
  line : Option String
  destination : Option String
  scheduled_time : Option String
  actual_time : Option String
  platform : Option String
deriving DecidableEq, Repr

/-- The per-departure field mapping of `fetch_and_parse_departures`
(`simplified_departure = ⟨departure.get("Linienname"), ...⟩`). -/
def simplifyDeparture (d : RawDeparture) : Departure :=
  { line := d.Linienname
    destination := d.Richtungstext
    scheduled_time := d.AbfahrtszeitSoll
    actual_time := d.AbfahrtszeitIst
    platform := d.HaltesteigText }

/-- Outcome of the HTTP GET in `fetch_and_parse_departures`: each error
constructor corresponds to one `except` clause of the source; `ok` carries the
decoded JSON body, reduced to its optional top-level `"Abfahrten"` list (the
only part the code reads, via `raw_data.get("Abfahrten", [])`). -/
inductive ApiResponse where
  | timeout
  | httpError
  | requestError
  | jsonDecodeError
  | otherError
  | ok (abfahrten : Option (List RawDeparture))
deriving DecidableEq, Repr

/-- Python `str.split(sep)` on a single-character separator, over the
character list: splits at every occurrence, keeping empty segments. -/
def splitOnChar (c : Char) : List Char → List (List Char)
  | [] => [[]]
  | x :: xs =>
    let r := splitOnChar c xs
    if x = c then [] :: r
    else
      match r with
      | [] => [[x]]
      | y :: ys => (x :: y) :: ys

/-- Python `stop_id.split(":")`. -/
def pySplit (s : String) (c : Char) : List String :=
  (splitOnChar c s.data).map (fun l => String.mk l)

/-- Python `stop_id.startswith(pre)`. -/
def pyStartsWith (s pre : String) : Bool :=
  pre.data.isPrefixOf s.data

/-- The GTFS-id normalization at the top of `fetch_and_parse_departures`:
if the stop id starts with `"de:"` and splits on `":"` into at least four
parts, the third part (`parts[2]`) is used; otherwise the id is unchanged.
The `except` fallback of the source is unreachable (the index is guarded by
the length check), so the guarded branch returns `parts[2]` directly. -/
def numericStopId (stop_id : String) : String :=
  if pyStartsWith stop_id "de:" then
    let parts := pySplit stop_id ':'
    if 4 ≤ parts.length then parts.getD 2 stop_id else stop_id
  else stop_id

/-- `f"{api_base_url}/abfahrten/VGN/"` with
`api_base_url = "https://start.vag.de/dm/api/v1"`. -/
def urlBase : String := "https://start.vag.de/dm/api/v1/abfahrten/VGN/"

/-- The request URL `f"{api_base_url}/abfahrten/VGN/{numeric_stop_id}"`. -/
def apiUrl (stop_id : String) : String := urlBase ++ numericStopId stop_id

/-- The `try`/`except` body of `fetch_and_parse_departures`: every error
outcome returns `None`; a successful response yields the mapped list, with a
missing `"Abfahrten"` key treated as the empty list. -/
def handleResponse : ApiResponse → Option (List Departure)
  | .ok abfahrten => some ((abfahrten.getD []).map simplifyDeparture)
  | _ => none

/-- `fetch_and_parse_departures(stop_id)`: the world (the network) is a
function from request URL to response outcome; the code requests `apiUrl
stop_id` and post-processes the response. -/
def fetch_and_parse_departures (world : String → ApiResponse) (stop_id : String) :
    Option (List Departure) :=
  handleResponse (world (apiUrl stop_id))

/-! ## Delay engine (`scripts/analysis_queries.py`)

Timestamp parsing is `pd.to_datetime(col, errors='coerce', utc=True)`, an
external library routine; it is modelled as a parameter
`parse : String → Option ℚ` returning epoch seconds (`none` for `NaT`).
A record field that is `None` also parses to `NaT`, hence `Option.bind`. -/

/-- `pd.to_datetime` applied to one optional string field. -/
def parseField (parse : String → Option ℚ) (field : Option String) : Option ℚ :=
  field.bind parse

/-- One row of the delay computation of `get_regional_departures_df` (and
identically `get_live_departures_for_stop`): parse both timestamps; if either
is `NaT` the row is dropped (`dropna(subset=['scheduled_dt', 'actual_dt'])`),
otherwise `delay_minutes = (time_diff.dt.total_seconds() / 60).round()`. -/
def computeDelayRow (parse : String → Option ℚ) (r : Departure) :
    Option (Departure × ℤ) :=
  match parseField parse r.scheduled_time, parseField parse r.actual_time with
  | some s, some a => some (r, roundHalfEven ((a - s) / 60))
  | _, _ => none

/-- The rows of the combined regional DataFrame after the delay computation:
rows whose timestamps both parse, annotated with their integer delay; rows
with an unparseable timestamp are dropped. -/
def regionalRows (parse : String → Option ℚ) (recs : List Departure) :
    List (Departure × ℤ) :=
  recs.filterMap (computeDelayRow parse)

/-- A pandas DataFrame as the KPI/distribution functions see it:
`hasDelayCol` is whether the `'delay_minutes'` column is present, and `rows`
holds each row's value of that column (`none` = `pd.NA`). `rows.length` is
the row count `len(df)`. -/
structure DF where
  hasDelayCol : Bool
  rows : List (Option ℤ)
deriving DecidableEq, Repr

/-- `get_regional_departures_df` from the point where the per-stop cached
lists have been concatenated into `all_departures_list` (the Redis MGET and
JSON decoding are I/O): an empty list yields an empty DataFrame with no
delay column; otherwise the DataFrame is built, rows with unparseable
timestamps dropped, and every remaining row is assigned its delay. -/
def get_regional_departures_df (parse : String → Option ℚ)
    (recs : List Departure) : DF :=
  if recs.isEmpty then ⟨false, []⟩
  else ⟨true, (regionalRows parse recs).map (fun p => some p.2)⟩

/-- A value of the KPI dictionary returned by `calculate_regional_kpis`:
`None`, a float (exact rational here), or an integer count. -/
inductive KpiVal where
  | none
  | num (q : ℚ)
  | count (n : ℕ)
deriving DecidableEq, Repr

/-- Python dict update `d[k] = v` on a key already present (all updates in
`calculate_regional_kpis` hit existing keys; insertion order is kept). -/
def dictSet (d : List (String × KpiVal)) (k : String) (v : KpiVal) :
    List (String × KpiVal) :=
  d.map (fun p => if p.1 = k then (k, v) else p)

/-- Dictionary lookup `d[k]`. -/
def dlookup (d : List (String × KpiVal)) (k : String) : Option KpiVal :=
  match d with
  | [] => Option.none
  | p :: t => if p.1 = k then some p.2 else dlookup t k

/-- `ON_TIME_THRESHOLD_MINUTES_LOW = -1`. -/
def ON_TIME_THRESHOLD_MINUTES_LOW : ℤ := -1

/-- `ON_TIME_THRESHOLD_MINUTES_HIGH = 3`. -/
def ON_TIME_THRESHOLD_MINUTES_HIGH : ℤ := 3

/-- `calculate_regional_kpis(departures_df)`, translated line by line: the
initial dict; the early return when the frame is empty or lacks the
`'delay_minutes'` column; `valid_delays = departures_df['delay_minutes']
.dropna()`; and, when `valid_delays` is non-empty, the mean delay and
`(on_time_count / valid_delay_count) * 100`. -/
def calculate_regional_kpis (df : DF) : List (String × KpiVal) :=
  let kpis : List (String × KpiVal) :=
    [("avg_delay", KpiVal.none),
     ("on_time_percent", KpiVal.none),
     ("total_departures", KpiVal.count df.rows.length),
     ("valid_delay_count", KpiVal.count 0)]
  if df.rows.isEmpty || !df.hasDelayCol then kpis
  else
    let valid := df.rows.filterMap id
    let kpis := dictSet kpis "valid_delay_count" (KpiVal.count valid.length)
    if valid.isEmpty then kpis
    else
      let avg : ℚ := (valid.map (fun d => (d : ℚ))).sum / (valid.length : ℚ)
      let onTimeCount :=
        (valid.filter (fun d =>
          decide (ON_TIME_THRESHOLD_MINUTES_LOW ≤ d) &&
          decide (d ≤ ON_TIME_THRESHOLD_MINUTES_HIGH))).length
      let kpis := dictSet kpis "avg_delay" (KpiVal.num avg)
      dictSet kpis "on_time_percent"
        (KpiVal.num ((onTimeCount : ℚ) / (valid.length : ℚ) * 100))

/-- The `valid_delay_count` value `calculate_regional_kpis` reports: `0` from
the early return, else `len(valid_delays)`. -/
def validDelayCount (df : DF) : ℕ :=
  if df.rows.isEmpty || !df.hasDelayCol then 0
  else (df.rows.filterMap id).length

/-- `on_time_count`: defined delays within `[-1, 3]`. -/
def onTimeCountOf (df : DF) : ℕ :=
  ((df.rows.filterMap id).filter (fun d =>
    decide (ON_TIME_THRESHOLD_MINUTES_LOW ≤ d) &&
    decide (d ≤ ON_TIME_THRESHOLD_MINUTES_HIGH))).length

/-- The reported `on_time_percent` when `valid_delay_count > 0`. -/
def onTimePercentOf (df : DF) : ℚ :=
  (onTimeCountOf df : ℚ) / (validDelayCount df : ℚ) * 100

/-- The reported `avg_delay` (mean of the defined delays) when
`valid_delay_count > 0`. -/
def avgDelayOf (df : DF) : ℚ :=
  ((df.rows.filterMap id).map (fun d => (d : ℚ))).sum / (validDelayCount df : ℚ)

/-- `DELAY_BUCKET_LABELS`, with the f-strings evaluated at
`LOW = -1`, `HIGH = 3`. -/
def DELAY_BUCKET_LABELS : List String :=
  ["< -1m (Early)", "-1m to +3m (On Time)", "+4m to +10m (Late)",
   "> +10m (Very Late)"]

/-- The bucket index assigned by `pd.cut(valid_delays,
bins=[-inf, -2, 3, 10, inf], right=True)` to an integer delay: intervals
`(-inf, -2]`, `(-2, 3]`, `(3, 10]`, `(10, inf)`. -/
def bucketIdx (d : ℤ) : ℕ :=
  if d ≤ -2 then 0
  else if d ≤ 3 then 1
  else if d ≤ 10 then 2
  else 3

/-- `delay_categories.value_counts()` for one bucket. -/
def bucketCount (valid : List ℤ) (i : ℕ) : ℕ :=
  valid.countP (fun d => bucketIdx d == i)

/-- The zero-initialized four-category frame
(`pd.DataFrame({'category': DELAY_BUCKET_LABELS, 'count': 0})`). -/
def zeroDistribution : List (String × ℕ) :=
  DELAY_BUCKET_LABELS.map (fun l => (l, 0))

/-- `get_regional_delay_distribution(departures_df)`: the zero-initialized
four-category frame; returned as-is when the frame is empty, the
`'delay_minutes'` column is missing, or no delay is defined; otherwise the
per-bucket counts of the defined delays. -/
def get_regional_delay_distribution (df : DF) : List (String × ℕ) :=
  if df.rows.isEmpty || !df.hasDelayCol then zeroDistribution
  else
    let valid := df.rows.filterMap id
    if valid.isEmpty then zeroDistribution
    else
      [("< -1m (Early)", bucketCount valid 0),
       ("-1m to +3m (On Time)", bucketCount valid 1),
       ("+4m to +10m (Late)", bucketCount valid 2),
       ("> +10m (Very Late)", bucketCount valid 3)]

/-- The number of records of the frame with a defined delay (a frame without
the `'delay_minutes'` column has none). -/
def definedDelayCount (df : DF) : ℕ :=
  if df.hasDelayCol then (df.rows.filterMap id).length else 0

/-! ## Polling job and cache writer (`data_fetcher.py`) -/

/-- `priority_stops = ["510", "546", "3151"]`. -/
def priorityStops : List String := ["510", "546", "3151"]

/-- `ordered_stops = priority_stops + [s for s in stop_ids if s not in
priority_stops]`. -/
def orderedStops (stop_ids : List String) : List String :=
  priorityStops ++ stop_ids.filter (fun s => !(priorityStops.contains s))

/-- `stops_to_fetch = ordered_stops[:50]`. -/
def stopsToFetch (stop_ids : List String) : List String :=
  (orderedStops stop_ids).take 50

/-- The Redis cache as the writer sees it: key, serialized value, expiry
seconds. A `set` prepends; a `get` returns the most recent write. -/
abbrev Cache := List (String × String × ℕ)

/-- `redis_connection.set(key, value, ex=expiry)`. -/
def cacheSet (c : Cache) (k v : String) (e : ℕ) : Cache := (k, v, e) :: c

/-- `redis_connection.get(key)` with its TTL. -/
def cacheGet (c : Cache) (k : String) : Option (String × ℕ) :=
  match c with
  | [] => Option.none
  | (k2, v, e) :: t => if k2 = k then some (v, e) else cacheGet t k

/-- JSON of an optional-string value (`None` → `null`). -/
def jsonOptStr : Option String → String
  | some s => "\"" ++ s ++ "\""
  | Option.none => "null"

/-- One `"key": value` member of the serialized dict. -/
def jsonField (k : String) (v : Option String) : String :=
  "\"" ++ k ++ "\": " ++ jsonOptStr v

/-- One departure dict as `json.dumps` writes it (keys in insertion order;
escaping is not modelled — field values here contain no special characters). -/
def depJson (d : Departure) : String :=
  "\x7b" ++ String.intercalate ", "
    [jsonField "line" d.line,
     jsonField "destination" d.destination,
     jsonField "scheduled_time" d.scheduled_time,
     jsonField "actual_time" d.actual_time,
     jsonField "platform" d.platform] ++ "\x7d"

/-- `json.dumps(departures_data)` for the list. -/
def jsonDumps (deps : List Departure) : String :=
  "[" ++ String.intercalate ", " (deps.map depJson) ++ "]"

/-- `REDIS_EXPIRY = FETCH_INTERVAL_SECONDS + 30` (env default 60). -/
def redisExpiry (fetchIntervalSeconds : ℕ) : ℕ := fetchIntervalSeconds + 30

/-- The body of the per-stop loop of `fetch_nuremberg_stops_job`: a fetch
returning a non-empty list is stored under `"departures:" + stop_id` with
expiry `REDIS_EXPIRY`; a `None` (API error) or empty result writes nothing. -/
def jobStep (fetch : String → Option (List Departure)) (interval : ℕ)
    (c : Cache) (stop_id : String) : Cache :=
  match fetch stop_id with
  | some deps =>
    if 0 < deps.length then
      cacheSet c ("departures:" ++ stop_id) (jsonDumps deps) (redisExpiry interval)
    else c
  | Option.none => c

/-- `fetch_nuremberg_stops_job(stop_ids, redis_connection)` with a live
connection: early return on an empty stop list, otherwise the sequential
per-stop loop over `stops_to_fetch` (Redis write failures, logging, and the
inter-call sleep are effects outside the embedding). -/
def fetch_nuremberg_stops_job (fetch : String → Option (List Departure))
    (interval : ℕ) (stop_ids : List String) (cache : Cache) : Cache :=
  if stop_ids.isEmpty then cache
  else (stopsToFetch stop_ids).foldl (jobStep fetch interval) cache

/-! ## Static query layer (`scripts/analysis_queries.py`)

The database engine may be absent (`engineOk = false` models a falsy
`engine`), and the executed query is modelled by its outcome:
`Option.none` when the query raises, `some rows` on success. -/

/-- `ROUTE_TYPE_MAP`. -/
def ROUTE_TYPE_MAP : List (ℤ × String) :=
  [(0, "Tram"), (1, "Subway (U-Bahn)"), (2, "Rail (S-Bahn/Regional)"),
   (3, "Bus"), (4, "Ferry"), (5, "Cable Tram"), (6, "Aerial Lift"),
   (7, "Funicular"), (11, "Trolleybus"), (12, "Monorail")]

/-- `df['route_type'].map(ROUTE_TYPE_MAP).fillna('Other/' + code)`. -/
def routeTypeName (t : ℤ) : String :=
  match ROUTE_TYPE_MAP.lookup t with
  | some nm => nm
  | Option.none => "Other/" ++ toString t

/-- `get_route_type_counts(engine)`: empty frame when the engine is absent or
the query raises, otherwise the grouped counts with mapped type names. -/
def get_route_type_counts (engineOk : Bool)
    (queryResult : Option (List (ℤ × ℕ))) : List (String × ℕ) :=
  if !engineOk then []
  else
    match queryResult with
    | Option.none => []
    | some rows => rows.map (fun p => (routeTypeName p.1, p.2))

/-- The `prefix_map` of `get_stops_by_region`. -/
def regionPattern (region : String) : Option String :=
  if region = "Nuremberg" then some "de:09564:%"
  else if region = "Fürth" then some "de:09563:%"
  else if region = "Erlangen" then some "de:09562:%"
  else Option.none

/-- `get_stops_by_region(engine, region_name)`: early empty returns when the
engine is absent or the region has no pattern; the LIKE query's rows (kept
empty when the query raises); and the unconditional append of the three
hardcoded numeric ids for `"Nuremberg"`. -/
def get_stops_by_region (engineOk : Bool) (queryResult : Option (List String))
    (region : String) : List String :=
  if !engineOk then []
  else
    match regionPattern region with
    | Option.none => []
    | some _ =>
      let stop_ids := queryResult.getD []
      if region = "Nuremberg" then stop_ids ++ ["510", "546", "3151"]
      else stop_ids

/-! ## Concrete instances used by witnesses and counterexamples -/

/-- A concrete timestamp parser: `"T0"` is epoch second 0, `"T90"` is epoch
second 90, everything else fails to parse. -/
def parseW : String → Option ℚ :=
  fun t => if t = "T0" then some 0 else if t = "T90" then some 90 else Option.none

/-- A departure whose two timestamps both parse under `parseW`. -/
def depGood : Departure :=
  { line := some "U2", destination := some "Röthenbach", scheduled_time := some "T0",
    actual_time := some "T90", platform := some "2" }

/-- A departure with a missing (hence unparseable) scheduled time. -/
def depBad : Departure :=
  { line := some "U2", destination := some "Röthenbach", scheduled_time := Option.none,
    actual_time := some "T90", platform := some "2" }

/-- A concrete frame with delays `0`, `5` and one undefined delay. -/
def dfW : DF := ⟨true, [some 0, some 5, Option.none]⟩

/-! ## Theorems -/

theorem strAppendCancel (s t u : String) (h : s ++ t = s ++ u) : t = u := by
  have hd : s.data ++ t.data = s.data ++ u.data := by
    have h2 := congrArg String.data h
    simpa using h2
  cases t
  cases u
  exact congrArg String.mk (List.append_cancel_left hd)

theorem cacheGet_cacheSet_self (c : Cache) (k v : String) (e : ℕ) :
    cacheGet (cacheSet c k v e) k = some (v, e) := by
  simp [cacheSet, cacheGet]

theorem cacheGet_cacheSet_other (c : Cache) (k k2 v : String) (e : ℕ)
    (h : k ≠ k2) : cacheGet (cacheSet c k v e) k2 = cacheGet c k2 := by
  simp [cacheSet, cacheGet, h]

theorem jobFold_preserves (fetch : String → Option (List Departure))
    (interval : ℕ) (L : List String) (c : Cache) (sid : String)
    (deps : List Departure) (hf : fetch sid = some deps) (hne : deps ≠ [])
    (hc : cacheGet c ("departures:" ++ sid) = some (jsonDumps deps, redisExpiry interval)) :
    cacheGet (L.foldl (jobStep fetch interval) c) ("departures:" ++ sid) =
      some (jsonDumps deps, redisExpiry interval) := by
  induction L generalizing c with
  | nil => exact hc
  | cons x t ih =>
    rw [List.foldl_cons]
    apply ih
    rcases hx : fetch x with _ | d
    · simpa [jobStep, hx] using hc
    · by_cases hd : 0 < d.length
      · by_cases hk : ("departures:" ++ x) = ("departures:" ++ sid)
        · have hxs : x = sid := strAppendCancel "departures:" x sid hk
          subst hxs
          rw [hx] at hf
          injection hf with hdeps
          subst hdeps
          simp [jobStep, hx, hd, hk, cacheGet_cacheSet_self]
        · simpa [jobStep, hx, hd, cacheGet_cacheSet_other c _ _ _ _ hk] using hc
      · simpa [jobStep, hx, hd] using hc

theorem jobFold_writes (fetch : String → Option (List Departure))
    (interval : ℕ) (L : List String) (c : Cache) (sid : String)
    (deps : List Departure) (hmem : sid ∈ L) (hf : fetch sid = some deps)
    (hne : deps ≠ []) :
    cacheGet (L.foldl (jobStep fetch interval) c) ("departures:" ++ sid) =
      some (jsonDumps deps, redisExpiry interval) := by
  induction L generalizing c with
  | nil => cases hmem
  | cons x t ih =>
    rw [List.foldl_cons]
    rcases List.mem_cons.mp hmem with rfl | hmem2
    · have hstep : cacheGet (jobStep fetch interval c sid) ("departures:" ++ sid) =
          some (jsonDumps deps, redisExpiry interval) := by
        simp [jobStep, hf, List.length_pos.mpr hne, cacheGet_cacheSet_self]
      exact jobFold_preserves fetch interval t _ sid deps hf hne hstep
    · exact ih _ hmem2

theorem jobFold_noop (fetch : String → Option (List Departure)) (interval : ℕ)
    (L : List String) (c : Cache) (h : ∀ s ∈ L, fetch s = some []) :
    L.foldl (jobStep fetch interval) c = c := by
  induction L generalizing c with
  | nil => rfl
  | cons x t ih =>
    have hstep : jobStep fetch interval c x = c := by
      simp [jobStep, h x (List.mem_cons_self x t)]
    rw [List.foldl_cons, hstep]
    exact ih c (fun s hs => h s (List.mem_cons_of_mem x hs))

/-- Counterexample to C7 as stated: an empty departure list is not stored —
running the job on one stop whose fetch yields the empty list leaves no
value under its `departures:` key. -/
theorem c7_counterexample :
    cacheGet (fetch_nuremberg_stops_job (fun _ => some []) 60 ["99"] [])
      "departures:99" = Option.none := by
  decide

/-- C7 amended: the cache writer stores each *non-empty* fetched departure
list serialized as JSON under `"departures:" + stop_id` with expiry equal to
the polling interval plus 30 seconds; a stop whose fetch yields an empty
list (or fails) is skipped without a write, so a cycle in which every polled
stop yields an empty list completes and leaves the cache unchanged. -/
theorem c7_amended_cache_writer (fetch : String → Option (List Departure))
    (interval : ℕ) (stop_ids : List String) (cache : Cache) :
    redisExpiry interval = interval + 30 ∧
    (∀ sid deps, stop_ids ≠ [] → sid ∈ stopsToFetch stop_ids →
      fetch sid = some deps → deps ≠ [] →
      cacheGet (fetch_nuremberg_stops_job fetch interval stop_ids cache)
        ("departures:" ++ sid) = some (jsonDumps deps, interval + 30)) ∧
    ((∀ s, s ∈ stopsToFetch stop_ids → fetch s = some []) →
      fetch_nuremberg_stops_job fetch interval stop_ids cache = cache) := by
  refine ⟨rfl, fun sid deps hids hmem hf hdne => ?_, fun h => ?_⟩
  · unfold fetch_nuremberg_stops_job
    rw [if_neg (by simpa [List.isEmpty_iff] using hids)]
    exact jobFold_writes fetch interval _ cache sid deps hmem hf hdne
  · unfold fetch_nuremberg_stops_job
    split
    · rfl
    · exact jobFold_noop fetch interval _ cache h

/-- Witness for C7 amended: fetching `[depGood]` for stop `"546"` in a cycle
with a 60-second interval stores its JSON under `"departures:546"` with
expiry 90. -/
theorem c7_witness :
    cacheGet (fetch_nuremberg_stops_job
        (fun sid => if sid = "546" then some [depGood] else some []) 60 ["546"] [])
      ("departures:" ++ "546") = some (jsonDumps [depGood], 90) := by
  have h := (c7_amended_cache_writer
      (fun sid => if sid = "546" then some [depGood] else some []) 60 ["546"] []).2.1
    "546" [depGood] (by decide) (by decide) (by decide) (by decide)
  simpa using h

/-- C5: `fetch_and_parse_departures` fails closed: every request error
(timeout, HTTP error status, network failure, malformed JSON, anything else)
returns `None` and never raises; a successful response without the top-level
`"Abfahrten"` list yields the empty list (distinguished from the error case);
and each normalized record maps every raw field through unchanged, so a
missing raw field yields an absent value, not an error. -/
theorem c5_fetch_fails_closed (world : String → ApiResponse) (stop_id : String) :
    ((world (apiUrl stop_id) = ApiResponse.timeout ∨
      world (apiUrl stop_id) = ApiResponse.httpError ∨
      world (apiUrl stop_id) = ApiResponse.requestError ∨
      world (apiUrl stop_id) = ApiResponse.jsonDecodeError ∨
      world (apiUrl stop_id) = ApiResponse.otherError) →
      fetch_and_parse_departures world stop_id = Option.none) ∧
    (world (apiUrl stop_id) = ApiResponse.ok Option.none →
      fetch_and_parse_departures world stop_id = some []) ∧
    (∀ raws, world (apiUrl stop_id) = ApiResponse.ok (some raws) →
      fetch_and_parse_departures world stop_id = some (raws.map simplifyDeparture)) ∧
    (∀ raw : RawDeparture,
      (simplifyDeparture raw).line = raw.Linienname ∧
      (simplifyDeparture raw).destination = raw.Richtungstext ∧
      (simplifyDeparture raw).scheduled_time = raw.AbfahrtszeitSoll ∧
      (simplifyDeparture raw).actual_time = raw.AbfahrtszeitIst ∧
      (simplifyDeparture raw).platform = raw.HaltesteigText) := by
  refine ⟨fun h => ?_, fun h => ?_, fun raws h => ?_, fun raw => ⟨rfl, rfl, rfl, rfl, rfl⟩⟩
  · rcases h with h | h | h | h | h <;>
      simp [fetch_and_parse_departures, handleResponse, h]
  · simp [fetch_and_parse_departures, handleResponse, h]
  · simp [fetch_and_parse_departures, handleResponse, h]

/-- Witness for C5 at concrete inputs: a timeout yields `None`, a response
without the departures field yields the empty list, and an all-absent raw
departure normalizes to absent fields. -/
theorem c5_witness :
    fetch_and_parse_departures (fun _ => ApiResponse.timeout) "3151" = Option.none ∧
    fetch_and_parse_departures (fun _ => ApiResponse.ok Option.none) "3151" = some [] ∧
    (simplifyDeparture ⟨Option.none, Option.none, Option.none, Option.none,
      Option.none⟩).scheduled_time = Option.none :=
  ⟨(c5_fetch_fails_closed (fun _ => ApiResponse.timeout) "3151").1 (Or.inl rfl),
   (c5_fetch_fails_closed (fun _ => ApiResponse.ok Option.none) "3151").2.1 rfl,
   ((c5_fetch_fails_closed (fun _ => ApiResponse.timeout) "3151").2.2.2
     ⟨Option.none, Option.none, Option.none, Option.none, Option.none⟩).2.2.1⟩

/-- C6: a stop id starting with the authority prefix `"de:"` that splits on
`":"` into at least four parts is normalized to its third part (index 2),
and that segment is what the request URL carries; any other id is used
unchanged. -/
theorem c6_gtfs_id_normalization (s : String) :
    (pyStartsWith s "de:" = true → 4 ≤ (pySplit s ':').length →
      numericStopId s = (pySplit s ':').getD 2 s ∧
      apiUrl s = urlBase ++ (pySplit s ':').getD 2 s) ∧
    ((pyStartsWith s "de:" = false ∨ (pySplit s ':').length < 4) →
      numericStopId s = s ∧ apiUrl s = urlBase ++ s) := by
  constructor
  · intro h1 h2
    have : numericStopId s = (pySplit s ':').getD 2 s := by
      unfold numericStopId
      rw [if_pos h1, if_pos h2]
    exact ⟨this, by rw [apiUrl, this]⟩
  · intro h
    have : numericStopId s = s := by
      unfold numericStopId
      rcases h with h | h
      · rw [if_neg (by simp [h])]
      · split
        · rw [if_neg (by omega)]
        · rfl
    exact ⟨this, by rw [apiUrl, this]⟩

/-- Witness for C6: the compound GTFS id `"de:09564:101:11:1"` is normalized
to its third segment `"101"` and the URL carries that segment. -/
theorem c6_witness :
    pyStartsWith "de:09564:101:11:1" "de:" = true ∧
    4 ≤ (pySplit "de:09564:101:11:1" ':').length ∧
    numericStopId "de:09564:101:11:1" = "101" ∧
    apiUrl "de:09564:101:11:1" = urlBase ++ "101" := by
  have h := (c6_gtfs_id_normalization "de:09564:101:11:1").1 (by decide) (by decide)
  have hseg : (pySplit "de:09564:101:11:1" ':').getD 2 "de:09564:101:11:1" = "101" := by
    decide
  refine ⟨by decide, by decide, ?_, ?_⟩
  · rw [h.1, hseg]
  · rw [h.2, hseg]

/-- Counterexample to C8 as stated: with the engine available and the
underlying query failing, `get_stops_by_region` for `"Nuremberg"` returns the
three hardcoded numeric ids, not an empty list. -/
theorem c8_counterexample :
    get_stops_by_region true Option.none "Nuremberg" = ["510", "546", "3151"] ∧
    (["510", "546", "3151"] : List String) ≠ [] := by
  constructor
  · rfl
  · decide

/-- C8 amended: the static query functions return a defined result rather
than raising: with the engine unavailable each returns its empty result;
with the engine available, `get_route_type_counts` returns an empty table
when the query fails, and `get_stops_by_region` returns an empty list when
the query fails or yields no rows for every region except `"Nuremberg"`, for
which it returns the three hardcoded numeric ids instead. -/
theorem c8_amended_empty_results :
    (∀ region queryResult, get_stops_by_region false queryResult region = []) ∧
    (∀ queryResult, get_route_type_counts false queryResult = []) ∧
    (get_route_type_counts true Option.none = []) ∧
    (∀ region queryResult, region ≠ "Nuremberg" →
      (queryResult = Option.none ∨ queryResult = some []) →
      get_stops_by_region true queryResult region = []) ∧
    (∀ queryResult, (queryResult = Option.none ∨ queryResult = some []) →
      get_stops_by_region true queryResult "Nuremberg" = ["510", "546", "3151"]) := by
  refine ⟨fun region q => rfl, fun q => rfl, rfl, fun region q hr hq => ?_,
    fun q hq => ?_⟩
  · unfold get_stops_by_region
    rcases hq with rfl | rfl <;>
      · simp only [Bool.not_true, Bool.false_eq_true, if_false]
        cases regionPattern region <;> simp [hr]
  · unfold get_stops_by_region
    rcases hq with rfl | rfl <;> rfl

/-- Witness for C8 amended at concrete inputs: unavailable engine gives the
empty list, a failed route-type query gives the empty table, a failed query
for `"Erlangen"` gives the empty list, and a zero-row query for
`"Nuremberg"` gives the hardcoded ids. -/
theorem c8_witness :
    get_stops_by_region false Option.none "Nuremberg" = [] ∧
    get_route_type_counts true Option.none = [] ∧
    get_stops_by_region true Option.none "Erlangen" = [] ∧
    get_stops_by_region true (some []) "Nuremberg" = ["510", "546", "3151"] :=
  ⟨c8_amended_empty_results.1 "Nuremberg" Option.none,
   c8_amended_empty_results.2.2.1,
   c8_amended_empty_results.2.2.2.1 "Erlangen" Option.none (by decide) (Or.inl rfl),
   c8_amended_empty_results.2.2.2.2 (some []) (Or.inr rfl)⟩

/-- Counterexample to C9 as stated: the fetched list is not a permutation of
a subset of the input list — for input `["999"]` it contains the priority id
`"510"` even though the input does not. -/
theorem c9_counterexample :
    "510" ∈ stopsToFetch ["999"] ∧ "510" ∉ (["999"] : List String) := by
  decide

/-- C9 amended: the fetched working set is the fixed priority list
`["510", "546", "3151"]` prepended unconditionally (whether or not those ids
occur in the input), followed by the input ids outside the priority set,
truncated to at most 50; so it has length at most 50, starts with the three
priority ids, and every fetched id comes from the priority set or the input. -/
theorem c9_amended_working_set (stop_ids : List String) :
    stopsToFetch stop_ids =
      priorityStops ++
        (stop_ids.filter (fun s => !(priorityStops.contains s))).take 47 ∧
    (stopsToFetch stop_ids).length ≤ 50 ∧
    (stopsToFetch stop_ids).take 3 = priorityStops ∧
    (∀ s, s ∈ stopsToFetch stop_ids → s ∈ priorityStops ∨ s ∈ stop_ids) := by
  have h1 : stopsToFetch stop_ids =
      priorityStops ++
        (stop_ids.filter (fun s => !(priorityStops.contains s))).take 47 := by
    unfold stopsToFetch orderedStops
    rw [List.take_append_eq_append_take]
    norm_num [priorityStops]
  refine ⟨h1, ?_, ?_, ?_⟩
  · unfold stopsToFetch
    simp [List.length_take]
  · rw [h1, List.take_append_eq_append_take]
    norm_num [priorityStops]
  · intro s hs
    rw [h1] at hs
    rcases List.mem_append.mp hs with h | h
    · exact Or.inl h
    · exact Or.inr (List.mem_of_mem_filter (List.take_subset 47 _ h))

/-- Witness for C9 amended: for input `["999"]` the fetched id `"510"` is in
the priority set or the input. -/
theorem c9_witness :
    "510" ∈ stopsToFetch ["999"] ∧
    ("510" ∈ priorityStops ∨ "510" ∈ (["999"] : List String)) :=
  ⟨by decide, (c9_amended_working_set ["999"]).2.2.2 "510" (by decide)⟩

theorem bucketIdx_cases (d : ℤ) :
    bucketIdx d = 0 ∨ bucketIdx d = 1 ∨ bucketIdx d = 2 ∨ bucketIdx d = 3 := by
  unfold bucketIdx
  split
  · exact Or.inl rfl
  · split
    · exact Or.inr (Or.inl rfl)
    · split
      · exact Or.inr (Or.inr (Or.inl rfl))
      · exact Or.inr (Or.inr (Or.inr rfl))

theorem bucketCount_sum (l : List ℤ) :
    bucketCount l 0 + bucketCount l 1 + bucketCount l 2 + bucketCount l 3 =
      l.length := by
  induction l with
  | nil => rfl
  | cons d t ih =>
    simp only [bucketCount, List.countP_cons] at ih ⊢
    rcases bucketIdx_cases d with h | h | h | h <;> simp [h] <;> omega

/-- C2: the delay distribution classifies every defined delay into exactly
one of four buckets with the claimed boundaries (`≤ −2` early, `−1..3`
on-time, `4..10` late, `≥ 11` very-late), the four counts sum to the number
of records with a defined delay, and all four bucket labels are present in
order for every input frame, including an empty one. -/
theorem c2_bucket_distribution (df : DF) :
    (get_regional_delay_distribution df).map Prod.fst = DELAY_BUCKET_LABELS ∧
    ((get_regional_delay_distribution df).map Prod.snd).sum =
      definedDelayCount df ∧
    (∀ d : ℤ,
      (bucketIdx d = 0 ↔ d ≤ -2) ∧
      (bucketIdx d = 1 ↔ -1 ≤ d ∧ d ≤ 3) ∧
      (bucketIdx d = 2 ↔ 4 ≤ d ∧ d ≤ 10) ∧
      (bucketIdx d = 3 ↔ 11 ≤ d)) := by
  refine ⟨?_, ?_, fun d => ?_⟩
  · unfold get_regional_delay_distribution
    split
    · rfl
    · dsimp only
      split
      · rfl
      · rfl
  · unfold get_regional_delay_distribution definedDelayCount
    split
    · rename_i h
      rcases Bool.or_eq_true_iff.mp h with h2 | h2
      · rw [List.isEmpty_iff.mp h2]
        split <;> rfl
      · rw [if_neg (by simpa using h2)]
        rfl
    · rename_i h
      have hcol : df.hasDelayCol = true := by
        rcases Bool.or_eq_true_iff.mpr (Or.inr rfl) with _
        by_contra hc
        exact h (by simp [Bool.not_eq_true] at hc ⊢; simp [hc])
      rw [if_pos hcol]
      dsimp only
      split
      · rename_i he
        rw [List.isEmpty_iff.mp he]
        rfl
      · have := bucketCount_sum (df.rows.filterMap id)
        simp only [List.map_cons, List.map_nil, List.sum_cons, List.sum_nil]
        omega
  · unfold bucketIdx
    split_ifs with h1 h2 h3 <;> simp_all <;> omega

/-- Witness for C2 at a concrete frame: on `dfW` (delays `0`, `5`, one
undefined) the distribution reports all four labels with counts summing to
the two defined delays. -/
theorem c2_witness :
    (get_regional_delay_distribution dfW).map Prod.fst = DELAY_BUCKET_LABELS ∧
    ((get_regional_delay_distribution dfW).map Prod.snd).sum =
      definedDelayCount dfW ∧
    definedDelayCount dfW = 2 :=
  ⟨(c2_bucket_distribution dfW).1, (c2_bucket_distribution dfW).2.1, by decide⟩

theorem kpiLookup_spec (df : DF) :
    dlookup (calculate_regional_kpis df) "total_departures" =
      some (KpiVal.count df.rows.length) ∧
    dlookup (calculate_regional_kpis df) "valid_delay_count" =
      some (KpiVal.count (validDelayCount df)) ∧
    (validDelayCount df = 0 →
      dlookup (calculate_regional_kpis df) "avg_delay" = some KpiVal.none ∧
      dlookup (calculate_regional_kpis df) "on_time_percent" = some KpiVal.none) ∧
    (0 < validDelayCount df →
      dlookup (calculate_regional_kpis df) "avg_delay" =
        some (KpiVal.num (avgDelayOf df)) ∧
      dlookup (calculate_regional_kpis df) "on_time_percent" =
        some (KpiVal.num (onTimePercentOf df))) ∧
    (calculate_regional_kpis df).map Prod.fst =
      ["avg_delay", "on_time_percent", "total_departures", "valid_delay_count"] := by
  by_cases hA : (df.rows.isEmpty || !df.hasDelayCol) = true
  · have hv : validDelayCount df = 0 := by simp only [validDelayCount, if_pos hA]
    refine ⟨?_, ?_, fun _ => ⟨?_, ?_⟩, fun hpos => absurd hv (by omega), ?_⟩ <;>
      simp [calculate_regional_kpis, hA, dlookup, hv]
  · have hv : validDelayCount df = (df.rows.filterMap id).length := by
      simp only [validDelayCount, if_neg hA]
    by_cases hB : (df.rows.filterMap id).isEmpty = true
    · have hv0 : validDelayCount df = 0 := by
        rw [hv, List.isEmpty_iff.mp hB]
        rfl
      refine ⟨?_, ?_, fun _ => ⟨?_, ?_⟩, fun hpos => absurd hv0 (by omega), ?_⟩ <;>
        simp [calculate_regional_kpis, hA, hB, dictSet, dlookup, hv0, hv.symm]
    · have hv0 : validDelayCount df ≠ 0 := by
        rw [hv]
        simpa [List.isEmpty_iff, List.length_eq_zero] using hB
      have havg : avgDelayOf df =
          ((df.rows.filterMap id).map (fun d => (d : ℚ))).sum /
            ((df.rows.filterMap id).length : ℚ) := by
        rw [avgDelayOf, hv]
      have hpct : onTimePercentOf df =
          (onTimeCountOf df : ℚ) / ((df.rows.filterMap id).length : ℚ) * 100 := by
        rw [onTimePercentOf, hv]
      refine ⟨?_, ?_, fun h0 => absurd h0 hv0, fun _ => ⟨?_, ?_⟩, ?_⟩ <;>
        simp [calculate_regional_kpis, hA, hB, dictSet, dlookup, hv.symm, havg,
          hpct, onTimeCountOf]

/-- C3: `calculate_regional_kpis` reports `on_time_percent` as 100 times the
count of delays in `[-1, 3]` divided by the count of defined delays, and
`avg_delay` as their mean; with zero defined delays both are the undefined
value `None` — the function still returns a full result (it is total, no
division is attempted) and never reports zero per cent in that case. -/
theorem c3_kpi_values (df : DF) :
    (validDelayCount df = 0 →
      dlookup (calculate_regional_kpis df) "avg_delay" = some KpiVal.none ∧
      dlookup (calculate_regional_kpis df) "on_time_percent" = some KpiVal.none ∧
      dlookup (calculate_regional_kpis df) "on_time_percent" ≠
        some (KpiVal.num 0)) ∧
    (0 < validDelayCount df →
      dlookup (calculate_regional_kpis df) "avg_delay" =
        some (KpiVal.num (avgDelayOf df)) ∧
      dlookup (calculate_regional_kpis df) "on_time_percent" =
        some (KpiVal.num (onTimePercentOf df))) := by
  refine ⟨fun h0 => ?_, fun hpos => (kpiLookup_spec df).2.2.2.1 hpos⟩
  have h := (kpiLookup_spec df).2.2.1 h0
  refine ⟨h.1, h.2, ?_⟩
  rw [h.2]
  intro hcontra
  injection hcontra with hc
  cases hc

/-- Witness for C3 at concrete frames: the all-undefined frame reports
undefined KPIs (and not zero per cent), and `dfW` (defined delays `0` and
`5`) reports a mean of `5/2` and 50 per cent on time. -/
theorem c3_witness :
    validDelayCount (⟨true, [Option.none]⟩ : DF) = 0 ∧
    dlookup (calculate_regional_kpis ⟨true, [Option.none]⟩) "on_time_percent" =
      some KpiVal.none ∧
    0 < validDelayCount dfW ∧
    dlookup (calculate_regional_kpis dfW) "avg_delay" =
      some (KpiVal.num (5 / 2)) ∧
    dlookup (calculate_regional_kpis dfW) "on_time_percent" =
      some (KpiVal.num 50) := by
  have h1 := (c3_kpi_values ⟨true, [Option.none]⟩).1 (by decide)
  have h2 := (c3_kpi_values dfW).2 (by decide)
  have hfm : List.filterMap id [some 0, some 5, (Option.none : Option ℤ)] =
      [0, 5] := by decide
  have havg : avgDelayOf dfW = 5 / 2 := by
    rw [avgDelayOf]
    norm_num [dfW, validDelayCount, hfm]
  have hpct : onTimePercentOf dfW = 50 := by
    rw [onTimePercentOf, onTimeCountOf]
    norm_num [dfW, validDelayCount, hfm,
      show ((0 : ℤ) :: [(5 : ℤ)]).filter
        (fun d => decide (ON_TIME_THRESHOLD_MINUTES_LOW ≤ d) &&
          decide (d ≤ ON_TIME_THRESHOLD_MINUTES_HIGH)) = [0] from by decide]
  exact ⟨by decide, h1.2.1, by decide, by rw [h2.1, havg], by rw [h2.2, hpct]⟩

/-- C10: `calculate_regional_kpis` returns a dictionary with exactly the
keys `avg_delay`, `on_time_percent`, `total_departures`,
`valid_delay_count`; `total_departures` is the number of input rows,
`valid_delay_count` is at most that, and whenever `valid_delay_count > 0`
the reported `on_time_percent` lies in `[0, 100]`. (The function reads the
frame and builds a fresh dict; the embedding is pure, matching the code,
which never assigns into its input frame.) -/
theorem c10_kpi_invariants (df : DF) :
    (calculate_regional_kpis df).map Prod.fst =
      ["avg_delay", "on_time_percent", "total_departures", "valid_delay_count"] ∧
    dlookup (calculate_regional_kpis df) "total_departures" =
      some (KpiVal.count df.rows.length) ∧
    dlookup (calculate_regional_kpis df) "valid_delay_count" =
      some (KpiVal.count (validDelayCount df)) ∧
    validDelayCount df ≤ df.rows.length ∧
    (0 < validDelayCount df →
      dlookup (calculate_regional_kpis df) "on_time_percent" =
        some (KpiVal.num (onTimePercentOf df)) ∧
      0 ≤ onTimePercentOf df ∧ onTimePercentOf df ≤ 100) := by
  have hle : validDelayCount df ≤ df.rows.length := by
    unfold validDelayCount
    split
    · omega
    · exact List.length_filterMap_le id df.rows
  refine ⟨(kpiLookup_spec df).2.2.2.2, (kpiLookup_spec df).1,
    (kpiLookup_spec df).2.1, hle, fun hpos => ?_⟩
  have hcount : onTimeCountOf df ≤ validDelayCount df := by
    unfold validDelayCount at hpos ⊢
    split at hpos
    · omega
    · rw [if_neg (by assumption)]
      exact List.length_filter_le _ _
  have hposq : (0 : ℚ) < (validDelayCount df : ℚ) := by exact_mod_cast hpos
  have hdiv : (onTimeCountOf df : ℚ) / (validDelayCount df : ℚ) ≤ 1 :=
    (div_le_one hposq).mpr (by exact_mod_cast hcount)
  refine ⟨((kpiLookup_spec df).2.2.2.1 hpos).2, ?_, ?_⟩
  · unfold onTimePercentOf
    positivity
  · unfold onTimePercentOf
    calc (onTimeCountOf df : ℚ) / (validDelayCount df : ℚ) * 100
        ≤ 1 * 100 := by
          exact mul_le_mul_of_nonneg_right hdiv (by norm_num)
      _ = 100 := by norm_num

/-- Witness for C10 at the concrete frame `dfW` (three rows, two defined
delays, one on time): the bound hypothesis holds and the reported
percentage is 50, within `[0, 100]`. -/
theorem c10_witness :
    0 < validDelayCount dfW ∧
    (calculate_regional_kpis dfW).map Prod.fst =
      ["avg_delay", "on_time_percent", "total_departures", "valid_delay_count"] ∧
    dlookup (calculate_regional_kpis dfW) "total_departures" =
      some (KpiVal.count 3) ∧
    validDelayCount dfW ≤ dfW.rows.length ∧
    0 ≤ onTimePercentOf dfW ∧ onTimePercentOf dfW ≤ 100 := by
  have h := c10_kpi_invariants dfW
  have h5 := h.2.2.2.2 (by decide)
  exact ⟨by decide, h.1, by simpa using h.2.1, h.2.2.2.1, h5.2.1, h5.2.2⟩

/-- C1: for every record of the input whose timestamps both parse, the delay
engine annotates it with `roundHalfEven ((actual − scheduled) / 60)` —
the integer rounding of the second difference divided by 60 (half-to-even,
as numpy rounds); a record for which either timestamp fails to parse carries
no delay value in the output (it is dropped, not an error). -/
theorem c1_delay_computation (parse : String → Option ℚ) (recs : List Departure)
    (r : Departure) (hr : r ∈ recs) :
    (∀ s a, parseField parse r.scheduled_time = some s →
      parseField parse r.actual_time = some a →
      (r, roundHalfEven ((a - s) / 60)) ∈ regionalRows parse recs) ∧
    ((parseField parse r.scheduled_time = Option.none ∨
      parseField parse r.actual_time = Option.none) →
      ∀ d : ℤ, (r, d) ∉ regionalRows parse recs) := by
  constructor
  · intro s a hs ha
    refine List.mem_filterMap.mpr ⟨r, hr, ?_⟩
    simp [computeDelayRow, hs, ha]
  · intro hfail d hmem
    rcases List.mem_filterMap.mp hmem with ⟨r2, _, hcomp⟩
    have hr2r : r2 = r := by
      rcases hs2 : parseField parse r2.scheduled_time with _ | s2
      · simp [computeDelayRow, hs2] at hcomp
      · rcases ha2 : parseField parse r2.actual_time with _ | a2
        · simp [computeDelayRow, hs2, ha2] at hcomp
        · simp [computeDelayRow, hs2, ha2] at hcomp
          exact hcomp.1
    subst hr2r
    rcases hfail with hf | hf
    · simp [computeDelayRow, hf] at hcomp
    · rcases hs2 : parseField parse r2.scheduled_time with _ | s2 <;>
        simp [computeDelayRow, hs2, hf] at hcomp

/-- Witness for C1: under `parseW` the record `depGood` (scheduled second 0,
actual second 90) is annotated with delay `2 = roundHalfEven (90 / 60)`,
while `depBad` (missing scheduled time) carries no delay. -/
theorem c1_witness :
    (depGood, (2 : ℤ)) ∈ regionalRows parseW [depGood, depBad] ∧
    (depBad, (2 : ℤ)) ∉ regionalRows parseW [depGood, depBad] := by
  have hs : parseField parseW depGood.scheduled_time = some 0 := by
    simp [parseField, parseW, depGood]
  have ha : parseField parseW depGood.actual_time = some 90 := by
    simp [parseField, parseW, depGood]
  have hg := (c1_delay_computation parseW [depGood, depBad] depGood
    (by simp)).1 0 90 hs ha
  have hb := (c1_delay_computation parseW [depGood, depBad] depBad
    (by simp)).2 (Or.inl (by simp [parseField, depBad])) 2
  have hr : roundHalfEven (((90 : ℚ) - 0) / 60) = 2 := by
    norm_num [roundHalfEven]
  exact ⟨by rwa [hr] at hg, hb⟩

/-- Counterexample to C4 as stated: fetching the two records `depGood` and
`depBad` (the latter with an unparseable scheduled time), the KPI output's
`total_departures` is 1, not 2 — the unparseable record is not retained in
the frame, so the coverage ratio is 1, not strictly less than 1. -/
theorem c4_counterexample :
    dlookup (calculate_regional_kpis
        (get_regional_departures_df parseW [depGood, depBad]))
      "total_departures" = some (KpiVal.count 1) ∧
    dlookup (calculate_regional_kpis
        (get_regional_departures_df parseW [depGood, depBad]))
      "valid_delay_count" = some (KpiVal.count 1) ∧
    ¬ dlookup (calculate_regional_kpis
        (get_regional_departures_df parseW [depGood, depBad]))
      "total_departures" = some (KpiVal.count 2) := by
  refine ⟨?_, ?_, ?_⟩ <;> decide

/-- C4 amended: a record with an unparseable timestamp is dropped from the
combined DataFrame before the KPI computation (it is not retained), so
`total_departures` equals the number of records whose two timestamps both
parse — not the number of fetched records — and `valid_delay_count` always
equals `total_departures` (the coverage ratio is 1 whenever any record
parses). -/
theorem c4_amended_dropped_records (parse : String → Option ℚ)
    (recs : List Departure) :
    dlookup (calculate_regional_kpis (get_regional_departures_df parse recs))
      "total_departures" = some (KpiVal.count (regionalRows parse recs).length) ∧
    dlookup (calculate_regional_kpis (get_regional_departures_df parse recs))
      "valid_delay_count" =
        some (KpiVal.count (regionalRows parse recs).length) := by
  by_cases hrec : recs.isEmpty
  · rw [List.isEmpty_iff.mp hrec]
    exact ⟨rfl, rfl⟩
  · have hdf : get_regional_departures_df parse recs =
        ⟨true, (regionalRows parse recs).map (fun p => some p.2)⟩ := by
      rw [get_regional_departures_df, if_neg (by simp [hrec])]
    have hvc : validDelayCount
        ⟨true, (regionalRows parse recs).map (fun p => some p.2)⟩ =
        (regionalRows parse recs).length := by
      unfold validDelayCount
      split
      · rename_i h
        simp only [Bool.not_true, Bool.or_false] at h
        simp [List.isEmpty_iff.mp (by simpa using h)]
      · simp [List.filterMap_map]
    have h := kpiLookup_spec ⟨true, (regionalRows parse recs).map (fun p => some p.2)⟩
    rw [hdf]
    refine ⟨?_, ?_⟩
    · rw [h.1]
      simp
    · rw [h.2.1, hvc]

end VGN
